import Mathlib

/-!
Verification of the OpenAPI → Next.js server-action generator
(`src/ServerActionCreator.ts`) against its design specification.

The parsed YAML document is untyped in the source (`doc as any`), so we model
document nodes as an inductive `JValue` of JSON-like values, together with
JavaScript-semantics helpers: truthiness, property access, `Object.entries`,
`Array.prototype.includes`, and string conversion.  Property access is modelled
as a total function returning `none` for `undefined`; the one place the source
can dereference a missing key (`resolveRef`) models the resulting JavaScript
`TypeError` explicitly with `Except`.

`schemaToTS` recurses through references without any cycle guard in the source,
so the embedding takes an explicit fuel parameter, structurally decreasing at
every recursive call; `none` means the computation has not finished within the
given fuel.  A run of the source function terminates with value `v` exactly
when some fuel bound returns `some v`.
-/

/-- JSON-like values of the parsed YAML document. `undefined` is represented
by `Option.none` at use sites, not as a constructor. -/
inductive JValue where
  | null : JValue
  | bool : Bool → JValue
  | num : Int → JValue
  | str : String → JValue
  | arr : List JValue → JValue
  | obj : List (String × JValue) → JValue
deriving Repr

/-- JavaScript truthiness of a defined value. -/
def jsTruthy : JValue → Bool
  | JValue.null => false
  | JValue.bool b => b
  | JValue.num n => decide (n ≠ 0)
  | JValue.str s => decide (s ≠ "")
  | JValue.arr _ => true
  | JValue.obj _ => true

/-- JavaScript truthiness of a possibly-`undefined` value. -/
def jsTruthyOpt : Option JValue → Bool
  | none => false
  | some v => jsTruthy v

/-- JavaScript property access `v[k]` for non-nullish `v`: objects give the
field, arrays support canonical numeric indices and `length`, strings support
numeric indices and `length`; any other access yields `undefined` (`none`). -/
def jsGet : JValue → String → Option JValue
  | JValue.obj fields, k => fields.lookup k
  | JValue.arr l, k =>
    if k = "length" then some (JValue.num l.length) else
    match k.toNat? with
    | some n => if toString n = k then l.get? n else none
    | none => none
  | JValue.str s, k =>
    if k = "length" then some (JValue.num s.length) else
    match k.toNat? with
    | some n =>
      if toString n = k then
        (s.data.get? n).map (fun c => JValue.str (String.mk [c]))
      else none
    | none => none
  | _, _ => none

/-- Optional chaining `v?.[k]` / `v?.k`: nullish short-circuits to `undefined`. -/
def jsOptChain (v : Option JValue) (k : String) : Option JValue :=
  match v with
  | none => none
  | some JValue.null => none
  | some w => jsGet w k

/-- `Object.entries` for the value shapes the generator can meet: object
fields in insertion order, arrays and strings as indexed entries, primitives
have no own enumerable entries. -/
def jsEntries : JValue → List (String × JValue)
  | JValue.obj fields => fields
  | JValue.arr l => (List.enum l).map (fun iv => (toString iv.1, iv.2))
  | JValue.str s =>
    (List.enum s.data).map (fun ic => (toString ic.1, JValue.str (String.mk [ic.2])))
  | _ => []

/-- `Object.entries` applied to a possibly-`undefined` value (callers guard
truthiness first). -/
def jsEntriesOpt : Option JValue → List (String × JValue)
  | none => []
  | some v => jsEntries v

mutual
/-- JavaScript string conversion as used by template literals. -/
def jsToString : JValue → String
  | JValue.null => "null"
  | JValue.bool b => cond b "true" "false"
  | JValue.num n => toString n
  | JValue.str s => s
  | JValue.arr l => String.intercalate "," (jsToStringElems l)
  | JValue.obj _ => "[object Object]"

/-- Array elements stringify like `Array.prototype.join`: `null` becomes
the empty string. -/
def jsToStringElems : List JValue → List String
  | [] => []
  | JValue.null :: rest => "" :: jsToStringElems rest
  | v :: rest => jsToString v :: jsToStringElems rest
end

/-- Template-literal conversion of a possibly-`undefined` value. -/
def jsToStringOpt : Option JValue → String
  | none => "undefined"
  | some v => jsToString v

/-- Substring containment over character lists (`String.prototype.includes`). -/
def charsContain (s pat : List Char) : Bool :=
  match s with
  | [] => pat.isEmpty
  | _ :: rest => pat.isPrefixOf s || charsContain rest pat

/-- `required.includes(key)`: arrays test strict equality against the string
key, strings test substring containment, other receivers throw `TypeError`
(no `includes` method). -/
def jsIncludes (v : JValue) (key : String) : Except String Bool :=
  match v with
  | JValue.arr l =>
    Except.ok (l.any (fun x => match x with
      | JValue.str s => s = key
      | _ => false))
  | JValue.str s => Except.ok (charsContain s.data key.data)
  | _ => Except.error "TypeError: includes is not a function"

/-- First-occurrence string replacement over character lists, the semantics of
JavaScript `String.prototype.replace` with a plain-string pattern.  An empty
pattern matches at position 0. -/
def replaceFirstChars (s pat repl : List Char) : List Char :=
  match s with
  | [] => if pat = [] then repl else []
  | c :: rest =>
    if pat.isPrefixOf s then repl ++ s.drop pat.length
    else c :: replaceFirstChars rest pat repl

/-- First-occurrence replacement on strings (JS `s.replace(pat, repl)` with a
string pattern and a replacement with no special `$`-sequences). -/
def replaceFirst (s pat repl : String) : String :=
  String.mk (replaceFirstChars s.data pat.data repl.data)

/-- `String.prototype.split('/')` over character lists: splits on every slash,
keeping empty segments, as in JavaScript. -/
def splitSlashAux : List Char → List Char → List String
  | [], acc => [String.mk acc.reverse]
  | '/' :: rest, acc => String.mk acc.reverse :: splitSlashAux rest []
  | c :: rest, acc => splitSlashAux rest (c :: acc)

/-- `ref.split('/')` (after the `#/` strip) with JavaScript semantics. -/
def splitSlash (s : String) : List String :=
  splitSlashAux s.data []

/-- `Array.prototype.join(sep)`. -/
def joinSep (sep : String) : List String → String
  | [] => ""
  | [x] => x
  | x :: y :: rest => x ++ sep ++ joinSep sep (y :: rest)

/-- `src/ServerActionCreator.ts` lines 57–64, `resolveRef`: strip the first
occurrence of `"#/"`, split on `/`, and walk the document.  Reading a property
of an `undefined` or `null` intermediate throws a `TypeError`; a missing final
segment silently yields `undefined` (`Except.ok none`). -/
def resolveRef (ref : String) (doc : JValue) : Except String (Option JValue) :=
  let parts := splitSlash (replaceFirst ref "#/" "")
  parts.foldl
    (fun acc part =>
      match acc with
      | Except.error e => Except.error e
      | Except.ok none => Except.error "TypeError: cannot read properties of undefined"
      | Except.ok (some JValue.null) => Except.error "TypeError: cannot read properties of null"
      | Except.ok (some v) => Except.ok (jsGet v part))
    (Except.ok (some doc))

/-- Left-to-right collection of the member strings produced while mapping over
`Object.entries(schema.properties)`: the first exception aborts, unfinished
recursion (`none`) propagates. -/
def collectMembers : List (Option (Except String String)) → Option (Except String (List String))
  | [] => some (Except.ok [])
  | none :: _ => none
  | some (Except.error e) :: _ => some (Except.error e)
  | some (Except.ok t) :: rest =>
    match collectMembers rest with
    | none => none
    | some (Except.error e) => some (Except.error e)
    | some (Except.ok ts) => some (Except.ok (t :: ts))

/-- `src/ServerActionCreator.ts` lines 67–96, `schemaToTS`, with explicit fuel:
`none` means the source's unbounded recursion has not finished within `fuel`
steps; `some (Except.error e)` a thrown JavaScript error; `some (Except.ok t)`
the returned TypeScript type text.  Falsy schemas give `"any"`; a truthy
`$ref` resolves and recurses; otherwise the `type` switch maps primitives,
arrays and objects, and anything else falls through to `"any"`. -/
def schemaToTS : Nat → Option JValue → JValue → Option (Except String String)
  | 0, _, _ => none
  | Nat.succ n, schemaOpt, doc =>
    match schemaOpt with
    | none => some (Except.ok "any")
    | some schema =>
      if jsTruthy schema = false then some (Except.ok "any")
      else
        let refOpt := jsGet schema "$ref"
        if jsTruthyOpt refOpt then
          match refOpt with
          | some (JValue.str r) =>
            (match resolveRef r doc with
             | Except.error e => some (Except.error e)
             | Except.ok resolved => schemaToTS n resolved doc)
          | _ => some (Except.error "TypeError: replace is not a function")
        else
          match jsGet schema "type" with
          | some (JValue.str "string") => some (Except.ok "string")
          | some (JValue.str "integer") => some (Except.ok "number")
          | some (JValue.str "number") => some (Except.ok "number")
          | some (JValue.str "boolean") => some (Except.ok "boolean")
          | some (JValue.str "array") =>
            (match schemaToTS n (jsGet schema "items") doc with
             | none => none
             | some (Except.error e) => some (Except.error e)
             | some (Except.ok t) => some (Except.ok ("Array<" ++ t ++ ">")))
          | some (JValue.str "object") =>
            let propsv := jsGet schema "properties"
            if jsTruthyOpt propsv = false then some (Except.ok "Record<string, any>")
            else
              let required :=
                match jsGet schema "required" with
                | some r => if jsTruthy r then r else JValue.arr []
                | none => JValue.arr []
              let rendered := (jsEntriesOpt propsv).map (fun kv =>
                match jsIncludes required kv.1 with
                | Except.error e => some (Except.error e)
                | Except.ok isReq =>
                  match schemaToTS n (some kv.2) doc with
                  | none => none
                  | some (Except.error e) => some (Except.error e)
                  | some (Except.ok t) =>
                    some (Except.ok (kv.1 ++ (cond isReq "" "?") ++ ": " ++ t)))
              match collectMembers rendered with
              | none => none
              | some (Except.error e) => some (Except.error e)
              | some (Except.ok members) =>
                some (Except.ok ("\x7b" ++ joinSep "; " members ++ "\x7d"))
          | _ => some (Except.ok "any")

/-! ## Naming: `functionName` (lines 100–101) and `fileName` (lines 184–185) -/

/-- `\w` of JavaScript regexes: `[A-Za-z0-9_]`. -/
def isWordChar (c : Char) : Bool :=
  ('a' ≤ c && c ≤ 'z') || ('A' ≤ c && c ≤ 'Z') || ('0' ≤ c && c ≤ '9') || c = '_'

/-- `route.replace(/\W+/g, '_')`: every maximal run of non-word characters
becomes a single underscore.  The flag records whether the scan is inside a
non-word run whose underscore has already been emitted. -/
def collapseNonWordAux : Bool → List Char → List Char
  | _, [] => []
  | inRun, c :: rest =>
    if isWordChar c then c :: collapseNonWordAux false rest
    else if inRun then collapseNonWordAux true rest
    else '_' :: collapseNonWordAux true rest

/-- `s.replace(/\W+/g, '_')` on strings. -/
def collapseNonWord (s : String) : String :=
  String.mk (collapseNonWordAux false s.data)

/-- Lowercase ASCII letter test (`[a-z]` of the camel-case regex). -/
def isLowerAZ (c : Char) : Bool := 'a' ≤ c && c ≤ 'z'

/-- `s.replace(/_([a-z])/g, (_, c) => c.toUpperCase())`: scanning left to
right, an underscore followed by a lowercase letter is replaced by the
capitalized letter; scanning resumes after the match. -/
def camelFoldAux : List Char → List Char
  | [] => []
  | '_' :: c :: rest =>
    if isLowerAZ c then Char.toUpper c :: camelFoldAux rest
    else '_' :: camelFoldAux (c :: rest)
  | c :: rest => c :: camelFoldAux rest

/-- The camel-case fold on strings. -/
def camelFold (s : String) : String :=
  String.mk (camelFoldAux s.data)

/-- `src/ServerActionCreator.ts` lines 100–101: the generated function's name.
`operationId || method + route.replace(/\W+/g,'_')` (falsy `operationId`
falls through), then the camel-case fold; a truthy non-string `operationId`
has no `replace` method and throws. -/
def functionNameOf (op : JValue) (method route : String) : Except String String :=
  match jsGet op "operationId" with
  | some v =>
    if jsTruthy v then
      match v with
      | JValue.str s => Except.ok (camelFold s)
      | _ => Except.error "TypeError: replace is not a function"
    else Except.ok (camelFold (method ++ collapseNonWord route))
  | none => Except.ok (camelFold (method ++ collapseNonWord route))

/-- `src/ServerActionCreator.ts` lines 184–185: the output file's name stem,
derived in the emission loop by the same two lines of code. -/
def fileNameOf (op : JValue) (method route : String) : Except String String :=
  match jsGet op "operationId" with
  | some v =>
    if jsTruthy v then
      match v with
      | JValue.str s => Except.ok (camelFold s)
      | _ => Except.error "TypeError: replace is not a function"
    else Except.ok (camelFold (method ++ collapseNonWord route))
  | none => Except.ok (camelFold (method ++ collapseNonWord route))

/-! ## The operation compiler, `generateFunction` (lines 99–178) -/

/-- Line 5: the base-address placeholder, kept as literal text for the
emitted TypeScript. -/
def API_URL : String := "$\x7bprocess.env.API_URL\x7d"

/-- Line 103: `operation.parameters || []`, then the list the `.filter` calls
iterate.  A truthy non-array has no `filter` method and throws. -/
def paramsArrOf (op : JValue) : Except String (List JValue) :=
  match jsGet op "parameters" with
  | none => Except.ok []
  | some v =>
    if jsTruthy v then
      match v with
      | JValue.arr l => Except.ok l
      | _ => Except.error "TypeError: filter is not a function"
    else Except.ok []

/-- Line 104: `parameters.filter(p => p.in === 'path')`. -/
def pathParamsOf (params : List JValue) : List JValue :=
  params.filter (fun p =>
    match jsGet p "in" with
    | some (JValue.str s) => s = "path"
    | _ => false)

/-- Line 105: `parameters.filter(p => p.in === 'query')`. -/
def queryParamsOf (params : List JValue) : List JValue :=
  params.filter (fun p =>
    match jsGet p "in" with
    | some (JValue.str s) => s = "query"
    | _ => false)

/-- Lines 111–113: each path parameter renders as `name: type`, with no
optional marker; joined with `'; '`. -/
def pathParamEntries (n : Nat) (params : List JValue) (doc : JValue) :
    Option (Except String (List String)) :=
  collectMembers (params.map (fun p =>
    match schemaToTS n (jsGet p "schema") doc with
    | none => none
    | some (Except.error e) => some (Except.error e)
    | some (Except.ok t) =>
      some (Except.ok (jsToStringOpt (jsGet p "name") ++ ": " ++ t))))

/-- Lines 111–113 joined: `pathParamTypes`. -/
def pathParamTypesOf (n : Nat) (params : List JValue) (doc : JValue) :
    Option (Except String String) :=
  match pathParamEntries n params doc with
  | none => none
  | some (Except.error e) => some (Except.error e)
  | some (Except.ok ts) => some (Except.ok (joinSep "; " ts))

/-- Lines 115–117: each query parameter renders as `name` plus `?` when its
`required` flag is falsy, then `: type`. -/
def queryParamEntries (n : Nat) (params : List JValue) (doc : JValue) :
    Option (Except String (List String)) :=
  collectMembers (params.map (fun p =>
    match schemaToTS n (jsGet p "schema") doc with
    | none => none
    | some (Except.error e) => some (Except.error e)
    | some (Except.ok t) =>
      some (Except.ok (jsToStringOpt (jsGet p "name")
        ++ (if jsTruthyOpt (jsGet p "required") then "" else "?") ++ ": " ++ t))))

/-- Lines 115–117 joined: `queryParamTypes`. -/
def queryParamTypesOf (n : Nat) (params : List JValue) (doc : JValue) :
    Option (Except String String) :=
  match queryParamEntries n params doc with
  | none => none
  | some (Except.error e) => some (Except.error e)
  | some (Except.ok ts) => some (Except.ok (joinSep "; " ts))

/-- Lines 119–121: `requestBody ? schemaToTS(requestBody.content['application/json']?.schema!, doc)
: 'undefined'`.  Reading `['application/json']` of a missing `content` throws. -/
def requestBodyTypeOf (n : Nat) (op : JValue) (doc : JValue) :
    Option (Except String String) :=
  let rb := jsGet op "requestBody"
  if jsTruthyOpt rb then
    match rb with
    | some rbv =>
      (match jsGet rbv "content" with
       | none => some (Except.error "TypeError: cannot read properties of undefined")
       | some JValue.null => some (Except.error "TypeError: cannot read properties of null")
       | some contentv =>
         schemaToTS n (jsOptChain (jsGet contentv "application/json") "schema") doc)
    | none => some (Except.ok "undefined")
  else some (Except.ok "undefined")

/-- Line 108: `operation.responses?.['200']?.content?.['application/json']?.schema`. -/
def resp200SchemaOf (op : JValue) : Option JValue :=
  jsOptChain (jsOptChain (jsOptChain (jsOptChain (jsGet op "responses") "200") "content")
    "application/json") "schema"

/-- Lines 123–125: `responseSchema ? schemaToTS(responseSchema, doc) : 'any'`. -/
def responseTypeOf (n : Nat) (op : JValue) (doc : JValue) : Option (Except String String) :=
  let rs := resp200SchemaOf op
  if jsTruthyOpt rs then schemaToTS n rs doc else some (Except.ok "any")

/-- Lines 127–138: the parameter signature, accumulated part by part with a
comma before each part appended to a non-empty accumulator, and the
`'_?: void'` placeholder when the accumulator stays empty. -/
def paramSignatureOf (pathParams queryParams : List JValue) (hasBody : Bool)
    (pathParamTypes queryParamTypes requestBodyType : String) : String :=
  let s1 :=
    if pathParams.length ≠ 0 then
      "\x7b " ++ joinSep ", " (pathParams.map (fun p => jsToStringOpt (jsGet p "name")))
        ++ " \x7d: \x7b " ++ pathParamTypes ++ " \x7d"
    else ""
  let s2 :=
    if queryParams.length ≠ 0 then
      (if s1 ≠ "" then s1 ++ ", query: \x7b " ++ queryParamTypes ++ " \x7d"
       else "query: \x7b " ++ queryParamTypes ++ " \x7d")
    else s1
  let s3 :=
    if hasBody then
      (if s2 ≠ "" then s2 ++ ", body: " ++ requestBodyType
       else "body: " ++ requestBodyType)
    else s2
  if s3 = "" then "_?: void" else s3

/-- Lines 140–144: the URL text starts as the base-address placeholder
concatenated with the route, then for each path parameter the FIRST
occurrence of `\x7bname\x7d` is replaced by `$\x7bname\x7d`
(JavaScript `String.prototype.replace` with a string pattern). -/
def urlOf (route : String) (pathParams : List JValue) : String :=
  pathParams.foldl
    (fun url p =>
      replaceFirst url ("\x7b" ++ jsToStringOpt (jsGet p "name") ++ "\x7d")
        ("$\x7b" ++ jsToStringOpt (jsGet p "name") ++ "\x7d"))
    (API_URL ++ route)

/-- Lines 146–148: the query-handling statement emitted into the body. -/
def queryHandlingOf (queryParams : List JValue) : String :=
  if queryParams.length ≠ 0 then
    "const queryStr = new URLSearchParams(Object.entries(query).filter(([_, v]) => v !== undefined).map(([k, v]) => [k, String(v)])).toString(); url += queryStr ? `?$\x7bqueryStr\x7d` : \"\";"
  else ""

/-- Lines 150–152: the options statement emitted into the body. -/
def bodyHandlingOf (hasBody : Bool) : String :=
  if hasBody then
    "const options: RequestInit = \x7b headers: \x7b \"Content-Type\": \"application/json\" \x7d, body: JSON.stringify(body) \x7d;"
  else "const options: RequestInit = \x7b\x7d;"

/-- Uppercasing used by `method.toUpperCase()` in the emitted diagnostic. -/
def strUpper (s : String) : String :=
  String.mk (s.data.map Char.toUpper)

/-- Lines 154–177: the emitted source text, assembled from the computed
pieces exactly as the template literal concatenates them. -/
def renderTemplate (summary description functionName paramSignature responseType
    url queryHandling bodyHandling method : String) : String :=
  ("'use server';\n\n/**\n * " ++ summary ++ "\n * " ++ description ++ "\n */\n"
    ++ "export async function " ++ functionName ++ "(" ++ paramSignature ++ "): ")
  ++ ("Promise<" ++ responseType ++ " | null>")
  ++ (" \x7b\n  try \x7b\n    let url = `" ++ url ++ "`;\n    " ++ queryHandling
    ++ "\n    " ++ bodyHandling
    ++ "\n    const res = await fetch(url, options);\n    \n    if (!res.ok) \x7b\n"
    ++ "      console.error(`API error: " ++ strUpper method
    ++ " $\x7burl\x7d $\x7bres.status\x7d`);\n      return null;\n    \x7d\n    \n"
    ++ "    return await res.json();\n  \x7d catch (error) \x7b\n"
    ++ "    console.error(error);\n    return null;\n  \x7d\n\x7d")

/-- `operation.summary || ''` (line 157). -/
def summaryOf (op : JValue) : String :=
  match jsGet op "summary" with
  | some v => if jsTruthy v then jsToString v else ""
  | none => ""

/-- `operation.description || ''` (line 158). -/
def descriptionOf (op : JValue) : String :=
  match jsGet op "description" with
  | some v => if jsTruthy v then jsToString v else ""
  | none => ""

/-- `src/ServerActionCreator.ts` lines 99–178, `generateFunction`, with fuel
threaded into every `schemaToTS` call: `none` when synthesis does not finish
within the fuel, `Except.error` when the generator throws, `Except.ok` the
emitted source text. -/
def generateFunction (n : Nat) (route method : String) (op : JValue) (doc : JValue) :
    Option (Except String String) :=
  match functionNameOf op method route with
  | Except.error e => some (Except.error e)
  | Except.ok functionName =>
    match paramsArrOf op with
    | Except.error e => some (Except.error e)
    | Except.ok params =>
      let pathParams := pathParamsOf params
      let queryParams := queryParamsOf params
      let hasBody := jsTruthyOpt (jsGet op "requestBody")
      match pathParamTypesOf n pathParams doc with
      | none => none
      | some (Except.error e) => some (Except.error e)
      | some (Except.ok pathTypes) =>
        match queryParamTypesOf n queryParams doc with
        | none => none
        | some (Except.error e) => some (Except.error e)
        | some (Except.ok queryTypes) =>
          match requestBodyTypeOf n op doc with
          | none => none
          | some (Except.error e) => some (Except.error e)
          | some (Except.ok bodyType) =>
            match responseTypeOf n op doc with
            | none => none
            | some (Except.error e) => some (Except.error e)
            | some (Except.ok respType) =>
              some (Except.ok (renderTemplate (summaryOf op) (descriptionOf op)
                functionName
                (paramSignatureOf pathParams queryParams hasBody pathTypes queryTypes bodyType)
                respType
                (urlOf route pathParams)
                (queryHandlingOf queryParams)
                (bodyHandlingOf hasBody)
                method))

/-! ## Runtime model of the emitted callable (the template, lines 160–177)

The emitted body is one fixed template; its runtime behavior is determined by
the outcome of the single `fetch` call (and of `res.json()`).  `Transport`
enumerates those outcomes, `generatedTryBlock` is the `try`-block semantics
(`Except.error` = a thrown exception), and `runGeneratedCallable` wraps it in
the `catch` that logs and returns `null` (modelled as `none`). -/

/-- Outcome of the transport call in a generated callable. -/
inductive Transport where
  | throws (e : String)
  | responds (ok : Bool) (status : Nat) (jsonResult : Except String JValue)
deriving Repr

/-- The `try` block of the emitted template: a thrown fetch propagates; a
non-ok status logs the diagnostic and returns `null`; an ok status returns
the parsed JSON, whose parse failure propagates as a thrown exception. -/
def generatedTryBlock (method url : String) (t : Transport) :
    Except String (Option JValue × List String) :=
  match t with
  | Transport.throws e => Except.error e
  | Transport.responds ok status jsonResult =>
    if ok = false then
      Except.ok (none, ["API error: " ++ strUpper method ++ " " ++ url ++ " " ++ toString status])
    else
      match jsonResult with
      | Except.error e => Except.error e
      | Except.ok v => Except.ok (some v, [])

/-- The whole emitted callable: the `catch` converts any thrown condition into
a logged diagnostic and the absent-result marker `none`. -/
def runGeneratedCallable (method url : String) (t : Transport) :
    Option JValue × List String :=
  match generatedTryBlock method url t with
  | Except.error e => (none, [e])
  | Except.ok r => r

/-! ## Concrete documents used by the claims -/

/-- A self-referential object schema: its `self` property references the
enclosing schema `#/components/schemas/Node`. -/
def cyclicNodeSchema : JValue :=
  JValue.obj [("type", JValue.str "object"),
    ("properties", JValue.obj [("self", JValue.obj [("$ref", JValue.str "#/components/schemas/Node")])])]

/-- A document containing the self-referential schema. -/
def cyclicDoc : JValue :=
  JValue.obj [("components", JValue.obj [("schemas", JValue.obj [("Node", cyclicNodeSchema)])])]

/-- A document whose `components.schemas` map exists but is empty, so the
final segment of `#/components/schemas/Missing` is absent. -/
def missingTargetDoc : JValue :=
  JValue.obj [("components", JValue.obj [("schemas", JValue.obj [])])]

/-- A schema node referencing the absent `#/components/schemas/Missing`. -/
def brokenRefSchema : JValue :=
  JValue.obj [("$ref", JValue.str "#/components/schemas/Missing")]

/-- A path parameter named `id`. -/
def idPathParam : JValue :=
  JValue.obj [("name", JValue.str "id"), ("in", JValue.str "path")]

/-- A bare (un-interpolated) `\x7bname\x7d` placeholder occurs in the text:
an occurrence of `\x7b` + name + `\x7d` not preceded by `$`. -/
def barePlaceholderAux (pat : List Char) : Option Char → List Char → Bool
  | _, [] => false
  | prev, c :: rest =>
    (c = '\x7b' && prev ≠ some '$' && pat.isPrefixOf rest) || barePlaceholderAux pat (some c) rest

/-- Whether a bare `\x7bname\x7d` placeholder (not `$\x7bname\x7d`) survives in `s`. -/
def hasBarePlaceholder (s name : String) : Bool :=
  barePlaceholderAux (name.data ++ ['\x7d']) none s.data

/-- A document in which `#/components/schemas/Node` is a string schema. -/
def stringNodeDoc : JValue :=
  JValue.obj [("components", JValue.obj [("schemas",
    JValue.obj [("Node", JValue.obj [("type", JValue.str "string")])])])]

/-- A schema referencing `#/components/schemas/Node`. -/
def stringNodeRef : JValue :=
  JValue.obj [("$ref", JValue.str "#/components/schemas/Node")]

/-- The canonical object schema built from a property list and a required
list, as the generator sees it after YAML parsing. -/
def objSchema (ps : List (String × JValue)) (req : List String) : JValue :=
  JValue.obj [("type", JValue.str "object"), ("properties", JValue.obj ps),
    ("required", JValue.arr (req.map JValue.str))]

/-- A path parameter with an integer schema and no `required` flag. -/
def idIntParam : JValue :=
  JValue.obj [("name", JValue.str "id"), ("in", JValue.str "path"),
    ("schema", JValue.obj [("type", JValue.str "integer")])]

/-- An operation whose `200` response carries a string JSON schema. -/
def respStringOp : JValue :=
  JValue.obj [("responses", JValue.obj [("200", JValue.obj [("content",
    JValue.obj [("application/json", JValue.obj [("schema",
      JValue.obj [("type", JValue.str "string")])])])])])]

/-! ## Helper lemmas -/

/-- Strings with equal character data are equal. -/
theorem strDataEq (a b : String) (h : a.data = b.data) : a = b := by
  cases a with
  | mk da => cases b with
    | mk db => exact congrArg String.mk h

/-- String append is associative. -/
theorem strAppendAssoc (a b c : String) : a ++ b ++ c = a ++ (b ++ c) := by
  apply strDataEq
  simp [String.data_append, List.append_assoc]

/-- A string whose first factor is non-empty is non-empty. -/
theorem strAppendNeEmpty (a b : String) (h : a.data ≠ []) : (a ++ b) ≠ "" := by
  intro hab
  apply h
  have hd : (a ++ b).data = ([] : List Char) := by rw [hab]
  rw [String.data_append] at hd
  exact (List.append_eq_nil.mp hd).1

/-- A list is a Boolean prefix of itself followed by anything. -/
theorem isPrefixOf_append_self (l t : List Char) : l.isPrefixOf (l ++ t) = true := by
  induction l with
  | nil => simp [List.isPrefixOf]
  | cons c rest ih => simp [List.isPrefixOf, ih]

/-- `schemaToTS` with zero fuel is unfinished. -/
theorem schemaToTS_zero (s : Option JValue) (doc : JValue) : schemaToTS 0 s doc = none := rfl

/-- Unfolding `schemaToTS` at a truthy schema whose `$ref` is a non-empty
string that resolves: one step of fuel is consumed and synthesis continues on
the resolved node (lines 70–73 of the source). -/
theorem schemaToTS_ref_step (s : JValue) (r : String) (doc : JValue) (res : Option JValue)
    (hs : jsTruthy s = true) (href : jsGet s "$ref" = some (JValue.str r)) (hr : r ≠ "")
    (hres : resolveRef r doc = Except.ok res) (m : Nat) :
    schemaToTS (m + 1) (some s) doc = schemaToTS m res doc := by
  have htr : jsTruthy (JValue.str r) = true := by simp [jsTruthy, hr]
  simp only [schemaToTS, href, jsTruthyOpt]
  rw [hs, htr]
  simp [hres]

/-- One unfolding of `schemaToTS` on the self-referential schema: two fuel
steps in, synthesis is back at the same schema node. -/
theorem cyclic_schema_unfold (m : Nat) :
    schemaToTS (m + 2) (some cyclicNodeSchema) cyclicDoc =
      (fun x =>
        match collectMembers [match x with
          | none => none
          | some (Except.error e) => some (Except.error e)
          | some (Except.ok t) => some (Except.ok ("self" ++ "?" ++ ": " ++ t))] with
        | none => none
        | some (Except.error e) => some (Except.error e)
        | some (Except.ok members) =>
          some (Except.ok ("\x7b" ++ joinSep "; " members ++ "\x7d")))
      (schemaToTS m (some cyclicNodeSchema) cyclicDoc) := rfl

/-- C1: the spec requires that synthesis terminate on every reachable schema
node, including a self-referential object; the source `schemaToTS` has no
cycle guard, and on the self-referential schema no amount of fuel finishes:
the recursion is unbounded.  (code bug relative to the spec's termination
requirement.) -/
theorem c1_cyclic_schema_never_terminates :
    ∀ n, schemaToTS n (some cyclicNodeSchema) cyclicDoc = none := by
  intro n
  induction n using Nat.strong_induction_on with
  | _ n ih =>
    match n with
    | 0 => rfl
    | 1 => rfl
    | (m + 2) =>
      rw [cyclic_schema_unfold m, ih m (by omega)]
      rfl

/-- C2: synthesis is transparent to reference resolution.  For a truthy
schema node whose `$ref` is a non-empty string resolving to a reachable node
`X`, `schemaToTS` on the reference terminates with outcome `o` exactly when
`schemaToTS` on `X` does: resolution costs one fuel step and nothing else. -/
theorem c2_ref_transparent (s : JValue) (r : String) (doc X : JValue)
    (o : Except String String)
    (hs : jsTruthy s = true) (href : jsGet s "$ref" = some (JValue.str r)) (hr : r ≠ "")
    (hres : resolveRef r doc = Except.ok (some X)) :
    (∃ n, schemaToTS n (some s) doc = some o) ↔ (∃ n, schemaToTS n (some X) doc = some o) := by
  constructor
  · rintro ⟨n, hn⟩
    match n with
    | 0 => exact Option.noConfusion hn
    | (m + 1) =>
      refine ⟨m, ?_⟩
      rw [← schemaToTS_ref_step s r doc (some X) hs href hr hres m]
      exact hn
  · rintro ⟨m, hm⟩
    refine ⟨m + 1, ?_⟩
    rw [schemaToTS_ref_step s r doc (some X) hs href hr hres m]
    exact hm

/-- Witness for C2 at a concrete document: the reference to a string schema
synthesizes to `string` exactly when the target does. -/
theorem c2_ref_transparent_witness :
    ((∃ n, schemaToTS n (some stringNodeRef) stringNodeDoc = some (Except.ok "string")) ↔
      (∃ n, schemaToTS n (some (JValue.obj [("type", JValue.str "string")])) stringNodeDoc
        = some (Except.ok "string"))) ∧
    jsTruthy stringNodeRef = true ∧
    resolveRef "#/components/schemas/Node" stringNodeDoc
      = Except.ok (some (JValue.obj [("type", JValue.str "string")])) :=
  ⟨c2_ref_transparent stringNodeRef "#/components/schemas/Node" stringNodeDoc
      (JValue.obj [("type", JValue.str "string")]) (Except.ok "string")
      rfl rfl (by decide) rfl,
    rfl, rfl⟩

/-- C3: the spec requires a distinguishable lookup error for any reference
with an absent segment; but when the ABSENT segment is the last one,
`resolveRef` silently returns `undefined` (no error), and `schemaToTS`
degrades it to the untyped fallback `any`.  (code bug relative to the spec's
broken-reference policy.) -/
theorem c3_missing_last_segment_silently_any :
    resolveRef "#/components/schemas/Missing" missingTargetDoc = Except.ok none ∧
    schemaToTS 2 (some brokenRefSchema) missingTargetDoc = some (Except.ok "any") := by
  exact ⟨rfl, rfl⟩

/-- C4: the generated identifier is the declared `operationId` when truthy,
else the method concatenated with the route with every maximal non-word run
collapsed to one underscore; in both cases the underscore–lowercase-letter
fold is then applied; and the file-name derivation (lines 184–185) is the
very same function of the operation, so identifier and storage key always
agree. -/
theorem c4_naming :
    (∀ (op : JValue) (m r : String), fileNameOf op m r = functionNameOf op m r) ∧
    (∀ (s m r : String),
      functionNameOf (JValue.obj [("operationId", JValue.str s)]) m r =
        Except.ok (camelFold (if s = "" then m ++ collapseNonWord r else s))) ∧
    (∀ (m r : String),
      functionNameOf (JValue.obj []) m r =
        Except.ok (camelFold (m ++ collapseNonWord r))) := by
  refine ⟨fun _ _ _ => rfl, fun s m r => ?_, fun _ _ => rfl⟩
  by_cases h : s = ""
  · subst h
    rfl
  · simp [functionNameOf, jsGet, jsTruthy, h]

/-- C4 counterexample: the camel-case fold of the source only matches an
underscore followed by a LOWERCASE letter (`/_([a-z])/g`), so the
underscore–uppercase-letter pair in `get_User` is NOT folded — refuting
"every underscore-letter pair is folded to the capitalized letter with the
underscore removed". -/
theorem c4_counterexample_uppercase_after_underscore :
    functionNameOf (JValue.obj [("operationId", JValue.str "get_User")]) "get" "/u"
      = Except.ok "get_User"
    ∧ ("get_User" : String) ≠ "getUser" := ⟨rfl, by decide⟩

/-- `required.includes(key)` on an array of strings is list membership. -/
theorem jsIncludes_strings (req : List String) (k : String) :
    jsIncludes (JValue.arr (req.map JValue.str)) k = Except.ok (decide (k ∈ req)) := by
  induction req with
  | nil => rfl
  | cons s rest ih =>
    simp only [jsIncludes, List.map_cons, List.any_cons] at ih ⊢
    by_cases h : s = k
    · subst h
      simp
    · simp only [Except.ok.injEq] at ih ⊢
      have hks : ¬k = s := fun hh => h hh.symm
      simp [h, ih, List.mem_cons, hks]

/-- Mapping over `Object.entries(schema.properties)` renders one member per
declared property, in order, with the optional marker exactly when the name
is not in the required list. -/
theorem collectMembers_props (n : Nat) (doc : JValue) (req : List String)
    (ps : List (String × JValue)) (f : String × JValue → String)
    (hf : ∀ kv ∈ ps, schemaToTS n (some kv.2) doc = some (Except.ok (f kv))) :
    collectMembers (ps.map (fun kv =>
      match jsIncludes (JValue.arr (req.map JValue.str)) kv.1 with
      | Except.error e => some (Except.error e)
      | Except.ok isReq =>
        match schemaToTS n (some kv.2) doc with
        | none => none
        | some (Except.error e) => some (Except.error e)
        | some (Except.ok t) => some (Except.ok (kv.1 ++ (cond isReq "" "?") ++ ": " ++ t))))
    = some (Except.ok (ps.map (fun kv =>
        kv.1 ++ (if kv.1 ∈ req then "" else "?") ++ ": " ++ f kv))) := by
  induction ps with
  | nil => rfl
  | cons kv rest ih =>
    have hkv := hf kv (List.mem_cons_self kv rest)
    have ihr := ih (fun kv h => hf kv (List.mem_cons_of_mem _ h))
    simp only [List.map_cons]
    rw [jsIncludes_strings req kv.1]
    rw [hkv]
    simp only [collectMembers]
    rw [ihr]
    simp [Bool.cond_decide]

/-- C5: for an object node with a property map, every declared property
appears exactly once in the synthesized record, in declaration order, with
the optional marker exactly when its name is not in the required list; an
object node without a property map synthesizes to the open mapping type. -/
theorem c5_object_members :
    (∀ (n : Nat) (doc : JValue) (ps : List (String × JValue)) (req : List String)
        (f : String × JValue → String),
      (∀ kv ∈ ps, schemaToTS n (some kv.2) doc = some (Except.ok (f kv))) →
      schemaToTS (n + 1) (some (objSchema ps req)) doc
        = some (Except.ok ("\x7b" ++ joinSep "; " (ps.map (fun kv =>
            kv.1 ++ (if kv.1 ∈ req then "" else "?") ++ ": " ++ f kv)) ++ "\x7d"))) ∧
    (∀ (n : Nat) (doc : JValue),
      schemaToTS (n + 1) (some (JValue.obj [("type", JValue.str "object")])) doc
        = some (Except.ok "Record<string, any>")) := by
  constructor
  · intro n doc ps req f hf
    have hstep : schemaToTS (n + 1) (some (objSchema ps req)) doc =
        (fun res =>
          match res with
          | none => none
          | some (Except.error e) => some (Except.error e)
          | some (Except.ok members) =>
            some (Except.ok ("\x7b" ++ joinSep "; " members ++ "\x7d")))
        (collectMembers (ps.map (fun kv =>
          match jsIncludes (JValue.arr (req.map JValue.str)) kv.1 with
          | Except.error e => some (Except.error e)
          | Except.ok isReq =>
            match schemaToTS n (some kv.2) doc with
            | none => none
            | some (Except.error e) => some (Except.error e)
            | some (Except.ok t) =>
              some (Except.ok (kv.1 ++ (cond isReq "" "?") ++ ": " ++ t))))) := rfl
    rw [hstep, collectMembers_props n doc req ps f hf]
  · intro n doc
    rfl

/-- Witness for C5 at a concrete object schema with a required `name` and an
optional `age`: the synthesized record lists both, in order, with `age`
optional. -/
theorem c5_object_members_witness :
    (∀ kv ∈ [("name", JValue.obj [("type", JValue.str "string")]),
             ("age", JValue.obj [("type", JValue.str "integer")])],
      schemaToTS 1 (some kv.2) JValue.null
        = some (Except.ok (if kv.1 = "name" then "string" else "number"))) ∧
    schemaToTS 2 (some (objSchema
        [("name", JValue.obj [("type", JValue.str "string")]),
         ("age", JValue.obj [("type", JValue.str "integer")])] ["name"])) JValue.null
      = some (Except.ok "\x7bname: string; age?: number\x7d") := by
  have hcheck : ∀ kv ∈ [("name", JValue.obj [("type", JValue.str "string")]),
      ("age", JValue.obj [("type", JValue.str "integer")])],
      schemaToTS 1 (some kv.2) JValue.null
        = some (Except.ok (if kv.1 = "name" then "string" else "number")) := by
    intro kv hkv
    simp only [List.mem_cons, List.not_mem_nil, or_false] at hkv
    rcases hkv with rfl | rfl
    · rfl
    · rfl
  refine ⟨hcheck, ?_⟩
  have h := (c5_object_members).1 1 JValue.null
    [("name", JValue.obj [("type", JValue.str "string")]),
     ("age", JValue.obj [("type", JValue.str "integer")])] ["name"]
    (fun kv => if kv.1 = "name" then "string" else "number") hcheck
  rw [h]
  rfl

/-- C9: synthesis is total over an absent schema.  An `undefined` schema node
yields `any`; an array node with no `items` yields `Array<any>`; a request
body with no JSON schema is typed `any`; a parameter with no schema renders
as `name: any`. -/
theorem c9_absent_schema_any :
    (∀ (n : Nat) (doc : JValue), schemaToTS (n + 1) none doc = some (Except.ok "any")) ∧
    (∀ (n : Nat) (doc : JValue),
      schemaToTS (n + 2) (some (JValue.obj [("type", JValue.str "array")])) doc
        = some (Except.ok "Array<any>")) ∧
    (∀ (n : Nat) (doc : JValue),
      requestBodyTypeOf (n + 1)
        (JValue.obj [("requestBody", JValue.obj [("content", JValue.obj [])])]) doc
        = some (Except.ok "any")) ∧
    (∀ (n : Nat) (doc : JValue) (name : String),
      pathParamEntries (n + 1)
        [JValue.obj [("name", JValue.str name), ("in", JValue.str "path")]] doc
        = some (Except.ok [name ++ ": any"])) := by
  refine ⟨fun n doc => rfl, fun n doc => rfl, fun n doc => rfl, fun n doc name => ?_⟩
  have hmerge : (": " : String) ++ "any" = ": any" := rfl
  have h : pathParamEntries (n + 1)
      [JValue.obj [("name", JValue.str name), ("in", JValue.str "path")]] doc
      = some (Except.ok [name ++ ": " ++ "any"]) := rfl
  rw [h, strAppendAssoc, hmerge]

/-- C10: path parameters never receive the optional marker in the generated
signature (regardless of their `required` flag), while query parameters
receive `?` exactly when their `required` flag is falsy. -/
theorem c10_path_params_never_optional :
    ∀ (n : Nat) (doc : JValue) (params : List JValue) (f : JValue → String),
      (∀ p ∈ params, schemaToTS n (jsGet p "schema") doc = some (Except.ok (f p))) →
      pathParamEntries n params doc
        = some (Except.ok (params.map (fun p =>
            jsToStringOpt (jsGet p "name") ++ ": " ++ f p)))
      ∧ queryParamEntries n params doc
        = some (Except.ok (params.map (fun p =>
            jsToStringOpt (jsGet p "name")
              ++ (if jsTruthyOpt (jsGet p "required") then "" else "?") ++ ": " ++ f p))) := by
  intro n doc params f hf
  induction params with
  | nil => exact ⟨rfl, rfl⟩
  | cons p rest ih =>
    have hp := hf p (List.mem_cons_self p rest)
    have ihr := ih (fun q h => hf q (List.mem_cons_of_mem _ h))
    constructor
    · simp only [pathParamEntries, List.map_cons] at ihr ⊢
      rw [hp]
      simp only [collectMembers]
      rw [ihr.1]
    · simp only [queryParamEntries, List.map_cons] at ihr ⊢
      rw [hp]
      simp only [collectMembers]
      rw [ihr.2]

/-- A string with a non-empty left factor is non-empty. -/
theorem neAppL (a b : String) (h : a ≠ "") : a ++ b ≠ "" := by
  apply strAppendNeEmpty
  intro hd
  exact h (strDataEq a "" hd)

/-- Splitting a literal factor inside an append chain. -/
theorem strSplitMerge (a b c x : String) (h : a ++ b = c) : c ++ x = a ++ (b ++ x) := by
  rw [← h, strAppendAssoc]

/-- C6: the generated parameter signature is the comma-join, in fixed order,
of the path-parameter group (present iff path parameters exist), the `query`
record (present iff query parameters exist) and the `body` parameter
(present iff a request body is declared); with none present it is exactly
the placeholder `_?: void`. -/
theorem c6_signature_comma_join :
    ∀ (pathParams queryParams : List JValue) (hasBody : Bool) (ppt qpt rbt : String),
      paramSignatureOf pathParams queryParams hasBody ppt qpt rbt =
        (let parts :=
          (if pathParams.isEmpty then []
           else ["\x7b " ++ joinSep ", " (pathParams.map (fun p => jsToStringOpt (jsGet p "name")))
              ++ " \x7d: \x7b " ++ ppt ++ " \x7d"]) ++
          (if queryParams.isEmpty then [] else ["query: \x7b " ++ qpt ++ " \x7d"]) ++
          (if hasBody then ["body: " ++ rbt] else []);
         if parts = [] then "_?: void" else joinSep ", " parts) := by
  intro pathParams queryParams hasBody ppt qpt rbt
  have hne1 : ("\x7b " : String) ≠ "" := by decide
  have hne2 : ("query: \x7b " : String) ≠ "" := by decide
  have hne3 : ("body: " : String) ≠ "" := by decide
  have hmb : ∀ x : String, (" \x7d, " : String) ++ ("body: " ++ x) = " \x7d, body: " ++ x :=
    fun x => (strSplitMerge " \x7d, " "body: " " \x7d, body: " x rfl).symm
  have hmq : ∀ x : String, (" \x7d, " : String) ++ ("query: \x7b " ++ x) = " \x7d, query: \x7b " ++ x :=
    fun x => (strSplitMerge " \x7d, " "query: \x7b " " \x7d, query: \x7b " x rfl).symm
  rcases pathParams with _ | ⟨p, ps⟩ <;> rcases queryParams with _ | ⟨q, qs⟩ <;>
    cases hasBody <;>
    simp [paramSignatureOf, joinSep, strAppendAssoc, neAppL, hne1, hne2, hne3, hmb, hmq]

/-- Witness for C10: the `id` parameter renders `id: number` (no optional
marker) in the path group even though its `required` flag is absent, and
`id?: number` when rendered as a query parameter. -/
theorem c10_path_params_never_optional_witness :
    (∀ p ∈ [idIntParam], schemaToTS 1 (jsGet p "schema") JValue.null
      = some (Except.ok "number")) ∧
    pathParamEntries 1 [idIntParam] JValue.null = some (Except.ok ["id: number"]) ∧
    queryParamEntries 1 [idIntParam] JValue.null = some (Except.ok ["id?: number"]) := by
  have hcheck : ∀ p ∈ [idIntParam], schemaToTS 1 (jsGet p "schema") JValue.null
      = some (Except.ok "number") := by
    intro p hp
    simp only [List.mem_cons, List.not_mem_nil, or_false] at hp
    subst hp
    rfl
  have h := c10_path_params_never_optional 1 JValue.null [idIntParam]
    (fun _ => "number") hcheck
  refine ⟨hcheck, ?_, ?_⟩
  · rw [h.1]
    rfl
  · rw [h.2]
    rfl

/-- C7 counterexample: on a route in which the `id` placeholder occurs twice,
the generated URL substitutes only the FIRST occurrence (JavaScript
`String.prototype.replace` with a string pattern), so a bare `\x7bid\x7d`
placeholder of a declared path parameter survives — refuting "every
occurrence ... is substituted (so no `\x7bname\x7d` ... survives)".  The
third conjunct shows the fully substituted URL the claim demands would have
no surviving bare placeholder. -/
theorem c7_counterexample_duplicate_placeholder :
    urlOf "/items/\x7bid\x7d/\x7bid\x7d" [idPathParam]
      = "$\x7bprocess.env.API_URL\x7d/items/$\x7bid\x7d/\x7bid\x7d"
    ∧ hasBarePlaceholder (urlOf "/items/\x7bid\x7d/\x7bid\x7d" [idPathParam]) "id" = true
    ∧ hasBarePlaceholder "$\x7bprocess.env.API_URL\x7d/items/$\x7bid\x7d/$\x7bid\x7d" "id"
        = false := by
  exact ⟨rfl, rfl, rfl⟩

/-- `replaceFirstChars` replaces exactly the designated occurrence when no
occurrence of the pattern starts earlier in the text. -/
theorem replaceFirstChars_at (pat repl b : List Char) :
    ∀ a : List Char, pat ≠ [] →
      (∀ k, k < a.length → pat.isPrefixOf ((a ++ pat ++ b).drop k) = false) →
      replaceFirstChars (a ++ pat ++ b) pat repl = a ++ repl ++ b := by
  intro a
  induction a with
  | nil =>
    intro hpat _
    match pat, hpat with
    | c :: pr, _ =>
      show (if (c :: pr).isPrefixOf ((c :: pr) ++ b) then
          repl ++ ((c :: pr) ++ b).drop (c :: pr).length
        else c :: replaceFirstChars (pr ++ b) (c :: pr) repl) = [] ++ repl ++ b
      rw [isPrefixOf_append_self]
      simp [List.drop_left]
  | cons c a' ih =>
    intro hpat hfirst
    have h0 := hfirst 0 (by simp)
    rw [List.drop_zero] at h0
    show replaceFirstChars (c :: (a' ++ pat ++ b)) pat repl = (c :: a') ++ repl ++ b
    have h0' : pat.isPrefixOf (c :: (a' ++ pat ++ b)) = false := by
      simpa using h0
    have ihr := ih hpat (fun k hk => by
      have hk1 := hfirst (k + 1) (by simpa using Nat.succ_lt_succ hk)
      simpa [List.drop_succ_cons] using hk1)
    show (if pat.isPrefixOf (c :: (a' ++ pat ++ b)) then
        repl ++ (c :: (a' ++ pat ++ b)).drop pat.length
      else c :: replaceFirstChars (a' ++ pat ++ b) pat repl) = (c :: a') ++ repl ++ b
    rw [h0']
    simp only [Bool.false_eq_true, if_false, List.cons_append]
    rw [ihr]

/-- C7 amended: for each declared path parameter, the FIRST occurrence of its
`\x7bname\x7d` placeholder in the URL text is substituted with the
interpolation marker `$\x7bname\x7d`; in particular, when the placeholder
occurs exactly once (no earlier occurrence in the base-plus-prefix text), it
does not survive. -/
theorem c7_amended_first_occurrence (name pre post : String) (p : JValue)
    (hp : jsGet p "name" = some (JValue.str name))
    (hfirst : ∀ k, k < (API_URL ++ pre).data.length →
      ("\x7b" ++ name ++ "\x7d").data.isPrefixOf
        (((API_URL ++ pre).data ++ ("\x7b" ++ name ++ "\x7d").data ++ post.data).drop k)
        = false) :
    urlOf (pre ++ "\x7b" ++ name ++ "\x7d" ++ post) [p]
      = (API_URL ++ pre) ++ ("$\x7b" ++ name ++ "\x7d") ++ post := by
  have hname : jsToStringOpt (jsGet p "name") = name := by
    rw [hp]
    exact rfl
  have hdata : (API_URL ++ (pre ++ "\x7b" ++ name ++ "\x7d" ++ post)).data
      = (API_URL ++ pre).data ++ ("\x7b" ++ name ++ "\x7d").data ++ post.data := by
    simp [String.data_append, List.append_assoc]
  have hpat : ("\x7b" ++ name ++ "\x7d").data ≠ [] := by
    simp [String.data_append]
  show replaceFirst (API_URL ++ (pre ++ "\x7b" ++ name ++ "\x7d" ++ post))
      ("\x7b" ++ jsToStringOpt (jsGet p "name") ++ "\x7d")
      ("$\x7b" ++ jsToStringOpt (jsGet p "name") ++ "\x7d")
      = (API_URL ++ pre) ++ ("$\x7b" ++ name ++ "\x7d") ++ post
  rw [hname]
  apply strDataEq
  show (replaceFirstChars (API_URL ++ (pre ++ "\x7b" ++ name ++ "\x7d" ++ post)).data
      ("\x7b" ++ name ++ "\x7d").data ("$\x7b" ++ name ++ "\x7d").data) = _
  rw [hdata]
  rw [replaceFirstChars_at _ _ _ _ hpat hfirst]
  simp [String.data_append, List.append_assoc]

/-- Witness for the amended C7 at the spec's Scenario B route `/items/\x7bid\x7d`:
the single `id` placeholder is substituted and the result is the base
placeholder plus `/items/$\x7bid\x7d`. -/
theorem c7_amended_first_occurrence_witness :
    (∀ k, k < (API_URL ++ "/items/").data.length →
      ("\x7b" ++ "id" ++ "\x7d").data.isPrefixOf
        (((API_URL ++ "/items/").data ++ ("\x7b" ++ "id" ++ "\x7d").data
          ++ ("" : String).data).drop k) = false)
    ∧ urlOf ("/items/" ++ "\x7b" ++ "id" ++ "\x7d" ++ "") [idPathParam]
        = (API_URL ++ "/items/") ++ ("$\x7b" ++ "id" ++ "\x7d") ++ "" :=
  ⟨by decide,
   c7_amended_first_occurrence "id" "/items/" "" idPathParam rfl (by decide)⟩

/-- C8: the declared result type of the generated callable is the synthesized
`"200"` JSON schema type (else `any`) unioned with `null`; and the emitted
body's runtime, over every transport outcome, never propagates a thrown
condition — failures are logged and become the absent-result marker. -/
theorem c8_response_type_and_error_contract :
    (∀ (n : Nat) (op doc : JValue) (t : String),
      jsTruthyOpt (resp200SchemaOf op) = true →
      schemaToTS n (resp200SchemaOf op) doc = some (Except.ok t) →
      responseTypeOf n op doc = some (Except.ok t)) ∧
    (∀ (n : Nat) (op doc : JValue),
      jsTruthyOpt (resp200SchemaOf op) = false →
      responseTypeOf n op doc = some (Except.ok "any")) ∧
    (∀ summary description fn sig rt url qh bh m : String, ∃ pre post : String,
      renderTemplate summary description fn sig rt url qh bh m
        = pre ++ ("Promise<" ++ rt ++ " | null>") ++ post) ∧
    (∀ (m u : String) (tr : Transport),
      runGeneratedCallable m u tr
        = match tr with
          | Transport.throws e => (none, [e])
          | Transport.responds ok status jr =>
            if ok = false then
              (none, ["API error: " ++ strUpper m ++ " " ++ u ++ " " ++ toString status])
            else
              match jr with
              | Except.error e => (none, [e])
              | Except.ok v => (some v, [])) := by
  refine ⟨?_, ?_, ?_, ?_⟩
  · intro n op doc t h1 h2
    simp [responseTypeOf, h1, h2]
  · intro n op doc h1
    simp [responseTypeOf, h1]
  · intro summary description fn sig rt url qh bh m
    exact ⟨"'use server';\n\n/**\n * " ++ summary ++ "\n * " ++ description ++ "\n */\n"
      ++ "export async function " ++ fn ++ "(" ++ sig ++ "): ",
      " \x7b\n  try \x7b\n    let url = `" ++ url ++ "`;\n    " ++ qh
      ++ "\n    " ++ bh
      ++ "\n    const res = await fetch(url, options);\n    \n    if (!res.ok) \x7b\n"
      ++ "      console.error(`API error: " ++ strUpper m
      ++ " $\x7burl\x7d $\x7bres.status\x7d`);\n      return null;\n    \x7d\n    \n"
      ++ "    return await res.json();\n  \x7d catch (error) \x7b\n"
      ++ "    console.error(error);\n    return null;\n  \x7d\n\x7d", rfl⟩
  · intro m u tr
    rcases tr with e | ⟨ok, status, jr⟩
    · rfl
    · cases ok
      · rfl
      · rcases jr with e | v <;> rfl

/-- Witness for C8: the concrete operation's declared type is `string`, and a
non-ok transport outcome yields the logged diagnostic plus the absent-result
marker rather than a thrown condition. -/
theorem c8_response_type_and_error_contract_witness :
    responseTypeOf 1 respStringOp JValue.null = some (Except.ok "string")
    ∧ runGeneratedCallable "get" "https://u/x" (Transport.responds false 500 (Except.ok JValue.null))
        = (none, ["API error: GET https://u/x 500"]) := by
  constructor
  · exact (c8_response_type_and_error_contract).1 1 respStringOp JValue.null "string" rfl rfl
  · rw [(c8_response_type_and_error_contract).2.2.2 "get" "https://u/x"
      (Transport.responds false 500 (Except.ok JValue.null))]
    rfl
